import Mathlib

/-!
Shallow embedding of the mixitup-translator caching proxy.

The repository caches pronoun data fetched from an upstream HTTP API
(RemoteResource with a freshness policy), keeps a per-user cache of such
resources (Users), periodically evicts stale entries (flush_users), and
reshapes a user record plus the pronoun dictionary into a display document
(Users.convert_json).

Modelling conventions:
- timestamps and timedeltas are integers (seconds); `now` is passed explicitly;
- JSON payloads are the inductive `Json`; Python dicts are association lists
  over string keys with dict update semantics (replace in place, else append);
- fallible Python code (KeyError, AttributeError, raise_for_status, the
  NoRefreshException control flow) returns `Except`;
- the HTTP layer is an explicit input: an `HttpResp` carries the final status
  and the outcome of parsing the body as JSON.
-/

/-- JSON-like values as manipulated by the program (numbers restricted to
integers; none of the cached API payloads the claims touch need floats). -/
inductive Json where
  | JNull : Json
  | JBool (b : Bool) : Json
  | JNum (n : Int) : Json
  | JStr (s : String) : Json
  | JArr (xs : List Json) : Json
  | JObj (kvs : List (String × Json)) : Json

mutual

/-- Python repr of a value, as used by str() on containers. -/
def pyRepr : Json → String
  | Json.JNull => "None"
  | Json.JBool true => "True"
  | Json.JBool false => "False"
  | Json.JNum n => toString n
  | Json.JStr s => "\x27" ++ s ++ "\x27"
  | Json.JArr xs => "[" ++ String.intercalate ", " (pyReprList xs) ++ "]"
  | Json.JObj kvs => "\x7b" ++ String.intercalate ", " (pyReprObj kvs) ++ "\x7d"

/-- Helper for pyRepr: repr of each element of a list. -/
def pyReprList : List Json → List String
  | [] => []
  | x :: xs => pyRepr x :: pyReprList xs

/-- Helper for pyRepr: repr of each entry of a dict. -/
def pyReprObj : List (String × Json) → List String
  | [] => []
  | (k, v) :: kvs => ("\x27" ++ k ++ "\x27: " ++ pyRepr v) :: pyReprObj kvs
end

/-- Python str() of a value, as interpolated by an f-string. -/
def pyStr : Json → String
  | Json.JStr s => s
  | v => pyRepr v

/-- Python truthiness of a value. -/
def pyTruthy : Json → Bool
  | Json.JNull => false
  | Json.JBool b => b
  | Json.JNum n => decide (n ≠ 0)
  | Json.JStr s => decide (s ≠ "")
  | Json.JArr xs => !xs.isEmpty
  | Json.JObj kvs => !kvs.isEmpty

/-- Association-list lookup: first entry with the given key. -/
def alGet {α : Type} : List (String × α) → String → Option α
  | [], _ => none
  | (k2, v) :: rest, k => if k2 = k then some v else alGet rest k

/-- Python dict assignment: replace the value at the key in place when
present, otherwise append the new entry at the end (insertion order). -/
def alSet {α : Type} : List (String × α) → String → α → List (String × α)
  | [], k, v => [(k, v)]
  | (k2, v2) :: rest, k, v =>
    if k2 = k then (k, v) :: rest else (k2, v2) :: alSet rest k v

/-- Python membership test on a dict: the key is present. -/
def alHas {α : Type} (d : List (String × α)) (k : String) : Bool :=
  (alGet d k).isSome

/-- A Python dict holding JSON data, in insertion order. -/
abbrev PyDict := List (String × Json)

/-- Failure modes of Users.convert_json: the explicit not-found HTTPException,
or an uncaught lookup failure (KeyError, AttributeError, TypeError) from a
subscript, dictionary lookup or str method on an ill-shaped value. -/
inductive ConvErr where
  | notFound : ConvErr
  | lookupError : ConvErr
deriving DecidableEq

/-- Python subscript on a dict, d[k]: KeyError when the key is absent. -/
def alGetE (d : PyDict) (k : String) : Except ConvErr Json :=
  match alGet d k with
  | some v => Except.ok v
  | none => Except.error ConvErr.lookupError

/-- Python subscript on a dict with an arbitrary JSON value as key, as in
pronouns[user["pronoun_id"]]: JSON object keys are strings, so the lookup
succeeds exactly for a string key that is present. -/
def pyDictGetJ (d : PyDict) (k : Json) : Except ConvErr Json :=
  match k with
  | Json.JStr s => alGetE d s
  | _ => Except.error ConvErr.lookupError

/-- Python subscript v[f] on a JSON value: succeeds when v is an object
containing the field, otherwise TypeError/KeyError. -/
def jGetField (v : Json) (f : String) : Except ConvErr Json :=
  match v with
  | Json.JObj kvs => alGetE kvs f
  | _ => Except.error ConvErr.lookupError

/-- The two-level read response[k][f] used throughout convert_json. -/
def respField (response : PyDict) (k f : String) : Except ConvErr Json :=
  match alGetE response k with
  | Except.error e => Except.error e
  | Except.ok v => jGetField v f

/-- Python v.lower(): defined on str, AttributeError on anything else. -/
def pyLowerJ (v : Json) : Except ConvErr Json :=
  match v with
  | Json.JStr s => Except.ok (Json.JStr s.toLower)
  | _ => Except.error ConvErr.lookupError

/-- Python v.upper(): defined on str, AttributeError on anything else. -/
def pyUpperJ (v : Json) : Except ConvErr Json :=
  match v with
  | Json.JStr s => Except.ok (Json.JStr s.toUpper)
  | _ => Except.error ConvErr.lookupError

/-- First block of Users.convert_json: the error-sentinel check, the copy of
the user record, and the resolution of pronoun and alt_pronoun into the
response (pronouns.py lines 85 to 92). -/
def resolve_step (pronouns user : PyDict) : Except ConvErr PyDict :=
  if alHas user "error" then Except.error ConvErr.notFound else
  match alGetE user "pronoun_id" with
  | Except.error e => Except.error e
  | Except.ok pidv =>
    match pyDictGetJ pronouns pidv with
    | Except.error e => Except.error e
    | Except.ok pr =>
      let r1 := alSet user "pronoun" pr
      match alGetE user "alt_pronoun_id" with
      | Except.error e => Except.error e
      | Except.ok altv =>
        if pyTruthy altv then
          match pyDictGetJ pronouns altv with
          | Except.error e => Except.error e
          | Except.ok altp => Except.ok (alSet r1 "alt_pronoun" altp)
        else
          Except.ok (alSet r1 "alt_pronoun" Json.JNull)

/-- Second block of Users.convert_json: compute display and its lowercase and
uppercase variants (pronouns.py lines 94 to 101). Branch one stores the raw
subject value; the other branches build a str through an f-string. -/
def display_step (response : PyDict) : Except ConvErr PyDict :=
  match respField response "pronoun" "singular" with
  | Except.error e => Except.error e
  | Except.ok sing =>
    match
      (if pyTruthy sing then
        respField response "pronoun" "subject"
      else
        match alGetE response "alt_pronoun" with
        | Except.error e => Except.error e
        | Except.ok altp =>
          if pyTruthy altp then
            match respField response "pronoun" "subject" with
            | Except.error e => Except.error e
            | Except.ok a =>
              match respField response "alt_pronoun" "subject" with
              | Except.error e => Except.error e
              | Except.ok b => Except.ok (Json.JStr (pyStr a ++ "/" ++ pyStr b))
          else
            match respField response "pronoun" "subject" with
            | Except.error e => Except.error e
            | Except.ok a =>
              match respField response "pronoun" "object" with
              | Except.error e => Except.error e
              | Except.ok b => Except.ok (Json.JStr (pyStr a ++ "/" ++ pyStr b))) with
    | Except.error e => Except.error e
    | Except.ok disp =>
      let r3 := alSet response "display" disp
      match alGetE r3 "display" with
      | Except.error e => Except.error e
      | Except.ok d1 =>
        match pyLowerJ d1 with
        | Except.error e => Except.error e
        | Except.ok dlow =>
          let r4 := alSet r3 "display_lower" dlow
          match alGetE r4 "display" with
          | Except.error e => Except.error e
          | Except.ok d2 =>
            match pyUpperJ d2 with
            | Except.error e => Except.error e
            | Except.ok dupp => Except.ok (alSet r4 "display_upper" dupp)

/-- Third block of Users.convert_json: the singular-they override and the
grammatical subject, subject_possessive and object fields (pronouns.py lines
103 to 111); the or-condition short-circuits as in Python. -/
def subject_step (response : PyDict) : Except ConvErr PyDict :=
  match respField response "pronoun" "singular" with
  | Except.error e => Except.error e
  | Except.ok sing =>
    match
      (if pyTruthy sing then Except.ok true
       else
         match alGetE response "pronoun_id" with
         | Except.error e => Except.error e
         | Except.ok pv =>
           Except.ok (match pv with
             | Json.JStr s => s == "theythem"
             | _ => false)) with
    | Except.error e => Except.error e
    | Except.ok cond =>
      if cond then
        Except.ok (alSet (alSet (alSet response "subject" (Json.JStr "They"))
          "subject_possessive" (Json.JStr "They\x27re")) "object" (Json.JStr "Them"))
      else
        match respField response "pronoun" "subject" with
        | Except.error e => Except.error e
        | Except.ok sv =>
          let r6 := alSet response "subject" sv
          match alGetE r6 "subject" with
          | Except.error e => Except.error e
          | Except.ok sv2 =>
            let r7 := alSet r6 "subject_possessive" (Json.JStr (pyStr sv2 ++ "\x27s"))
            match respField r7 "pronoun" "object" with
            | Except.error e => Except.error e
            | Except.ok ov => Except.ok (alSet r7 "object" ov)

/-- Fourth block of Users.convert_json: lowercase variants of subject,
subject_possessive and object (pronouns.py lines 112 to 114). -/
def lower_step (response : PyDict) : Except ConvErr PyDict :=
  match alGetE response "subject" with
  | Except.error e => Except.error e
  | Except.ok sv =>
    match pyLowerJ sv with
    | Except.error e => Except.error e
    | Except.ok sl =>
      let r9 := alSet response "subject_lower" sl
      match alGetE r9 "subject_possessive" with
      | Except.error e => Except.error e
      | Except.ok spv =>
        match pyLowerJ spv with
        | Except.error e => Except.error e
        | Except.ok spl =>
          let r10 := alSet r9 "subject_possessive_lower" spl
          match alGetE r10 "object" with
          | Except.error e => Except.error e
          | Except.ok ov =>
            match pyLowerJ ov with
            | Except.error e => Except.error e
            | Except.ok ol => Except.ok (alSet r10 "object_lower" ol)

/-- Users.convert_json of mixitup_translator/pronouns.py, as the composition
of its four straight-line blocks; every intermediate read goes through the
response dict exactly as the source does. -/
def convert_json (pronouns user : PyDict) : Except ConvErr PyDict :=
  match resolve_step pronouns user with
  | Except.error e => Except.error e
  | Except.ok r2 =>
    match display_step r2 with
    | Except.error e => Except.error e
    | Except.ok r5 =>
      match subject_step r5 with
      | Except.error e => Except.error e
      | Except.ok r8 => lower_step r8

/-- The example pronoun dictionary shipped in pronouns.py. -/
def example_pronouns : PyDict :=
  [("any", Json.JObj [("name", Json.JStr "any"), ("subject", Json.JStr "Any"),
     ("object", Json.JStr "Any"), ("singular", Json.JBool true)]),
   ("hehim", Json.JObj [("name", Json.JStr "hehim"), ("subject", Json.JStr "He"),
     ("object", Json.JStr "Him"), ("singular", Json.JBool false)]),
   ("other", Json.JObj [("name", Json.JStr "other"), ("subject", Json.JStr "Other"),
     ("object", Json.JStr "Other"), ("singular", Json.JBool true)]),
   ("theythem", Json.JObj [("name", Json.JStr "theythem"), ("subject", Json.JStr "They"),
     ("object", Json.JStr "Them"), ("singular", Json.JBool false)])]

/-- The first example user record shipped in pronouns.py. -/
def example_user_1 : PyDict :=
  [("channel_id", Json.JStr "123456789"), ("channel_login", Json.JStr "user1"),
   ("pronoun_id", Json.JStr "hehim"), ("alt_pronoun_id", Json.JStr "any")]

/-- The second example user record shipped in pronouns.py. -/
def example_user_2 : PyDict :=
  [("channel_id", Json.JStr "2345567890"), ("channel_login", Json.JStr "user2"),
   ("pronoun_id", Json.JStr "other"), ("alt_pronoun_id", Json.JNull)]

/-- Default minimum interval between forced refreshes: one minute. -/
def refreshMinDefault : Int := 60

/-- Default staleness threshold: one hour. -/
def refreshMaxDefault : Int := 3600

/-- Default last_refreshed value, the Unix time of 2020-01-01T01:01:01+00:00,
far enough in the past that a first access is always eligible. -/
def epochDefault : Int := 1577840461

/-- State of a RemoteResource from utils.py: refresh policy parameters, the
last refresh timestamp, the cached payload and the bound URL. -/
structure RemoteResource where
  refresh_min : Int := refreshMinDefault
  refresh_max : Int := refreshMaxDefault
  last_refreshed : Int := epochDefault
  data : Json := Json.JObj []
  url : String := ""

/-- The NoRefreshException of utils.py, carrying the age it reports. -/
structure NoRefreshException where
  age : Int
deriving DecidableEq

/-- RemoteResource._should_refresh: given the current time and the force flag,
return true when a refresh is allowed, otherwise raise NoRefreshException. -/
def should_refresh (st : RemoteResource) (now : Int) (force : Bool) :
    Except NoRefreshException Bool :=
  let age := now - st.last_refreshed
  if age > st.refresh_max then Except.ok true
  else if force ∧ age > st.refresh_min then Except.ok true
  else Except.error { age := age }

/-- Outcome of the HTTP GET performed by fetch: the final response status and
the result of parsing the body as JSON (none when parsing raises). -/
structure HttpResp where
  status : Nat
  body : Option Json

/-- Failure modes of RemoteResource.fetch: the NoRefreshException propagated
from _should_refresh, the ClientResponseError raised by raise_for_status for
a status of 400 or above, or a body that fails to parse as JSON. -/
inductive FetchErr where
  | notDue (age : Int) : FetchErr
  | upstreamError (status : Nat) : FetchErr
  | parseError : FetchErr
deriving DecidableEq

/-- The cached not-found sentinel stored on a 404. -/
def notFoundSentinel : Json := Json.JObj [("error", Json.JNum 404)]

/-- RemoteResource.fetch: gate on _should_refresh, then store the 404 sentinel
on a 404, raise through raise_for_status on any status of 400 or above, and
otherwise store the parsed body; data and last_refreshed are stamped together.
Returns the state after the call together with the raised error, if any. -/
def fetch (st : RemoteResource) (now : Int) (resp : HttpResp) (force : Bool) :
    RemoteResource × Option FetchErr :=
  match should_refresh st now force with
  | Except.error e => (st, some (FetchErr.notDue e.age))
  | Except.ok _ =>
    if resp.status = 404 then
      ({ st with data := notFoundSentinel, last_refreshed := now }, none)
    else if resp.status ≥ 400 then
      (st, some (FetchErr.upstreamError resp.status))
    else
      match resp.body with
      | some j => ({ st with data := j, last_refreshed := now }, none)
      | none => (st, some FetchErr.parseError)

/-- State of the Users cache of pronouns.py: the mapping from lowercased
username to its RemoteResource. -/
structure UsersState where
  users : List (String × RemoteResource) := []

/-- The per-user URL produced by Users.url.format. -/
def usersUrlFor (user : String) : String :=
  "https://api.pronouns.alejo.io/v1/users/" ++ user

/-- Users.fetch_user: lowercase the name, look up or lazily create and
register the resource, then delegate to its fetch; the mutation of the
resource object is modelled by writing the fetched state back under the key.
Returns the new cache state and the resource or the propagated error. -/
def fetch_user (s : UsersState) (user : String) (now : Int) (resp : HttpResp)
    (force : Bool) : UsersState × Except FetchErr RemoteResource :=
  let u := user.toLower
  let pre : UsersState × RemoteResource :=
    match alGet s.users u with
    | some r => (s, r)
    | none =>
      let r : RemoteResource := { url := usersUrlFor u }
      ({ users := alSet s.users u r }, r)
  match fetch pre.2 now resp force with
  | (r2, none) => ({ users := alSet pre.1.users u r2 }, Except.ok r2)
  | (r2, some e) => ({ users := alSet pre.1.users u r2 }, Except.error e)

/-- Failure modes of Users.get_user: an uncaught KeyError from the fallback
map lookup, or a fetch failure other than NoRefreshException propagated to
the caller. -/
inductive GetUserErr where
  | keyError : GetUserErr
  | fetchFailed (e : FetchErr) : GetUserErr
deriving DecidableEq

/-- Users.get_user: call fetch_user without force; on NoRefreshException fall
back to the cached resource under the lowercased name; return its data. -/
def get_user (s : UsersState) (user : String) (now : Int) (resp : HttpResp) :
    UsersState × Except GetUserErr Json :=
  match fetch_user s user now resp false with
  | (s1, Except.ok r) => (s1, Except.ok r.data)
  | (s1, Except.error (FetchErr.notDue _)) =>
    match alGet s1.users user.toLower with
    | some r => (s1, Except.ok r.data)
    | none => (s1, Except.error GetUserErr.keyError)
  | (s1, Except.error e) => (s1, Except.error (GetUserErr.fetchFailed e))

/-- One pass of the body of Users.flush_users: compute the clear time from
the RemoteResource class refresh_max, collect the keys whose resource was
last refreshed strictly before it, and delete those keys from the mapping. -/
def flush_users_once (users : List (String × RemoteResource)) (now : Int) :
    List (String × RemoteResource) :=
  let clear_time := now - refreshMaxDefault
  let to_clear := (users.filter
    (fun kv => decide (kv.2.last_refreshed < clear_time))).map Prod.fst
  to_clear.foldl (fun m k => m.filter (fun kv => !(kv.1 = k : Bool))) users

theorem alGet_alSet {α : Type} (d : List (String × α)) (k k2 : String) (v : α) :
    alGet (alSet d k v) k2 = if k2 = k then some v else alGet d k2 := by
  induction d with
  | nil =>
    by_cases h : k2 = k
    · subst h; simp [alGet, alSet]
    · have h2 : ¬ k = k2 := fun hh => h hh.symm
      simp [alGet, alSet, h, h2]
  | cons hd tl ih =>
    obtain ⟨hk, hv⟩ := hd
    by_cases h1 : hk = k
    · subst h1
      by_cases h2 : k2 = hk
      · subst h2; simp [alGet, alSet]
      · have h3 : ¬ hk = k2 := fun hh => h2 hh.symm
        simp [alGet, alSet, h2, h3]
    · by_cases h2 : k2 = hk
      · subst h2
        simp [alGet, alSet, h1, fun hh => h1 hh]
      · have h3 : ¬ hk = k2 := fun hh => h2 hh.symm
        simp [alGet, alSet, h1, h3, ih]

theorem alGet_alSet_self {α : Type} (d : List (String × α)) (k : String) (v : α) :
    alGet (alSet d k v) k = some v := by
  simp [alGet_alSet]

theorem alGet_alSet_ne {α : Type} (d : List (String × α)) (k k2 : String) (v : α)
    (h : k2 ≠ k) : alGet (alSet d k v) k2 = alGet d k2 := by
  simp [alGet_alSet, h]

theorem should_refresh_ok_iff (st : RemoteResource) (now : Int) (force : Bool) :
    should_refresh st now force = Except.ok true ↔
      (now - st.last_refreshed > st.refresh_max ∨
       (force = true ∧ now - st.last_refreshed > st.refresh_min)) := by
  constructor
  · intro h
    by_cases h1 : now - st.last_refreshed > st.refresh_max
    · exact Or.inl h1
    · by_cases h2 : force = true ∧ now - st.last_refreshed > st.refresh_min
      · exact Or.inr h2
      · simp [should_refresh, h1, h2] at h
  · intro h
    rcases h with h1 | h2
    · simp [should_refresh, h1]
    · by_cases h1 : now - st.last_refreshed > st.refresh_max
      · simp [should_refresh, h1]
      · simp [should_refresh, h1, h2]

/-- Claim C1: for refresh_min below refresh_max, _should_refresh returns true
exactly when the age exceeds refresh_max, or force is set and the age exceeds
refresh_min; in every other case it raises NoRefreshException carrying the
age; hence any age past refresh_max is eligible and, under force, an age at
or below refresh_min never is. -/
theorem should_refresh_spec (st : RemoteResource) (now : Int) (force : Bool)
    (hlt : st.refresh_min < st.refresh_max) :
    (should_refresh st now force = Except.ok true ↔
      (now - st.last_refreshed > st.refresh_max ∨
       (force = true ∧ now - st.last_refreshed > st.refresh_min)))
    ∧ (¬ (now - st.last_refreshed > st.refresh_max ∨
          (force = true ∧ now - st.last_refreshed > st.refresh_min)) →
        should_refresh st now force =
          Except.error { age := now - st.last_refreshed })
    ∧ (now - st.last_refreshed > st.refresh_max →
        should_refresh st now force = Except.ok true)
    ∧ (force = true → now - st.last_refreshed ≤ st.refresh_min →
        should_refresh st now force ≠ Except.ok true) := by
  refine ⟨should_refresh_ok_iff st now force, ?_, ?_, ?_⟩
  · intro h
    rcases not_or.mp h with ⟨h1, h2⟩
    simp [should_refresh, h1, h2]
  · intro h1
    simp [should_refresh, h1]
  · intro hf hle h
    have h1 : ¬ (now - st.last_refreshed > st.refresh_max) := by omega
    have h2 : ¬ (now - st.last_refreshed > st.refresh_min) := by omega
    simp [should_refresh, h1, h2] at h

/-- Witness for claim C1 at the default resource state, one hour past the
staleness threshold, without force. -/
theorem should_refresh_spec_witness :
    ({} : RemoteResource).refresh_min < ({} : RemoteResource).refresh_max
    ∧ (should_refresh {} (epochDefault + 7200) false = Except.ok true ↔
        (epochDefault + 7200 - ({} : RemoteResource).last_refreshed >
          ({} : RemoteResource).refresh_max ∨
         (false = true ∧ epochDefault + 7200 - ({} : RemoteResource).last_refreshed >
           ({} : RemoteResource).refresh_min))) :=
  ⟨by decide, (should_refresh_spec {} (epochDefault + 7200) false (by decide)).1⟩

/-- Claim C2 (amended): fetch updates data and last_refreshed together or not
at all: every failing call (NoRefreshException, a status of 400 or above
other than 404, or an unparseable body) returns the state exactly as it was,
and every succeeding call (status 404, or any status below 400 other than 404
with a parseable body) stamps last_refreshed and stores the corresponding
data in the same step. -/
theorem fetch_atomic (st : RemoteResource) (now : Int) (resp : HttpResp)
    (force : Bool) :
    ((fetch st now resp force).2.isSome = true ∧ (fetch st now resp force).1 = st)
    ∨ ((fetch st now resp force).2 = none
       ∧ (fetch st now resp force).1.last_refreshed = now
       ∧ ((resp.status = 404 ∧ (fetch st now resp force).1.data = notFoundSentinel)
          ∨ (resp.status ≠ 404 ∧ resp.status < 400
             ∧ ∃ j, resp.body = some j ∧ (fetch st now resp force).1.data = j))) := by
  cases h0 : should_refresh st now force with
  | error e => simp [fetch, h0]
  | ok b =>
    by_cases h1 : resp.status = 404
    · simp [fetch, h0, h1]
    · by_cases h2 : resp.status ≥ 400
      · simp [fetch, h0, h1, h2]
      · cases hb : resp.body with
        | some j => simp [fetch, h0, h1, h2, hb]; omega
        | none => simp [fetch, h0, h1, h2, hb]

/-- Counterexample for claim C2 as stated: a response with status 300, which
is neither 2xx nor 404, and a parseable body is not a failure that leaves the
state unchanged; fetch succeeds on it and restamps last_refreshed. -/
theorem fetch_non2xx_counterexample :
    ¬ ((((300 : Nat) < 200 ∨ 299 < (300 : Nat)) ∧ (300 : Nat) ≠ 404) →
       ((fetch { last_refreshed := 0 } 1000000
           { status := 300, body := some (Json.JObj []) } false).2.isSome = true
        ∧ (fetch { last_refreshed := 0 } 1000000
           { status := 300, body := some (Json.JObj []) } false).1.last_refreshed
            = 0)) := by
  intro h
  have h2 := (h ⟨Or.inr (by decide), by decide⟩).2
  have h3 : (fetch { last_refreshed := 0 } 1000000
      { status := 300, body := some (Json.JObj []) } false).1.last_refreshed
      = 1000000 := rfl
  rw [h3] at h2
  exact absurd h2 (by decide)

theorem fetch_user_post_lookup (s : UsersState) (user : String) (now : Int)
    (resp : HttpResp) (force : Bool) :
    (alGet (fetch_user s user now resp force).1.users user.toLower).isSome = true := by
  unfold fetch_user
  cases halg : alGet s.users user.toLower with
  | some r =>
    cases hf : fetch r now resp force with
    | mk r2 oe =>
      cases oe <;> simp [halg, hf, alGet_alSet_self]
  | none =>
    cases hf : fetch { url := usersUrlFor user.toLower } now resp force with
    | mk r2 oe =>
      cases oe <;> simp [halg, hf, alGet_alSet_self]

/-- Claim C8: fetch_user registers the resource under the lowercased name
before its fetch can raise NoRefreshException, so after any fetch_user call
the lowercased name is present in the cache, and the fallback map lookup in
the NotDue handler of get_user can never raise KeyError. -/
theorem fetch_user_registers (s : UsersState) (user : String) (now : Int)
    (resp : HttpResp) (force : Bool) :
    (alGet (fetch_user s user now resp force).1.users user.toLower).isSome = true
    ∧ (get_user s user now resp).2 ≠ Except.error GetUserErr.keyError := by
  refine ⟨fetch_user_post_lookup s user now resp force, ?_⟩
  have hpost := fetch_user_post_lookup s user now resp false
  unfold get_user
  cases hfu : fetch_user s user now resp false with
  | mk s1 res =>
    rw [hfu] at hpost
    cases res with
    | ok r => simp
    | error e =>
      cases e with
      | notDue a =>
        cases halg : alGet s1.users user.toLower with
        | some r => simp [halg]
        | none => rw [halg] at hpost; simp at hpost
      | upstreamError st2 => simp
      | parseError => simp

/-- Claim C7: for a username with no cache entry, once the default epoch is
more than refresh_max in the past, get_user returns exactly what the first
fetch produced: the 404 sentinel or the parsed body on success, and the
propagated upstream failure otherwise; the empty default data is never
returned without a successful fetch. -/
theorem get_user_first_fetch (s : UsersState) (user : String) (now : Int)
    (resp : HttpResp)
    (hnone : alGet s.users user.toLower = none)
    (hstale : refreshMaxDefault < now - epochDefault) :
    (get_user s user now resp).2 =
      (if resp.status = 404 then Except.ok notFoundSentinel
       else if 400 ≤ resp.status then
         Except.error (GetUserErr.fetchFailed (FetchErr.upstreamError resp.status))
       else
         match resp.body with
         | some j => Except.ok j
         | none => Except.error (GetUserErr.fetchFailed FetchErr.parseError)) := by
  have hsr : should_refresh { url := usersUrlFor user.toLower } now false
      = Except.ok true := by
    simp only [should_refresh]
    rw [if_pos]
    exact hstale
  by_cases h1 : resp.status = 404
  · simp [get_user, fetch_user, fetch, hnone, hsr, h1]
  · by_cases h2 : 400 ≤ resp.status
    · simp [get_user, fetch_user, fetch, hnone, hsr, h1, h2]
    · cases hb : resp.body with
      | some j => simp [get_user, fetch_user, fetch, hnone, hsr, h1, h2, hb]
      | none => simp [get_user, fetch_user, fetch, hnone, hsr, h1, h2, hb]

/-- Witness for claim C7: an empty cache, a name one hour and a second past
the default epoch, and a 200 response with a parseable record. -/
theorem get_user_first_fetch_witness :
    alGet ({} : UsersState).users ("User1".toLower) = none
    ∧ refreshMaxDefault < (epochDefault + 3601) - epochDefault
    ∧ (get_user {} "User1" (epochDefault + 3601)
          { status := 200, body := some (Json.JObj [("pronoun_id", Json.JStr "hehim")]) }).2 =
      (if (200 : Nat) = 404 then Except.ok notFoundSentinel
       else if 400 ≤ (200 : Nat) then
         Except.error (GetUserErr.fetchFailed (FetchErr.upstreamError 200))
       else
         match (some (Json.JObj [("pronoun_id", Json.JStr "hehim")]) : Option Json) with
         | some j => Except.ok j
         | none => Except.error (GetUserErr.fetchFailed FetchErr.parseError)) :=
  ⟨rfl, by decide,
    get_user_first_fetch {} "User1" (epochDefault + 3601)
      { status := 200, body := some (Json.JObj [("pronoun_id", Json.JStr "hehim")]) }
      rfl (by decide)⟩

theorem foldl_filter_delete {α : Type} (ks : List String) (l : List (String × α)) :
    ks.foldl (fun m k => m.filter (fun kv => !(kv.1 = k : Bool))) l
      = l.filter (fun kv => decide (kv.1 ∉ ks)) := by
  induction ks generalizing l with
  | nil => simp
  | cons k ks ih =>
    rw [List.foldl_cons, ih, List.filter_filter]
    refine List.filter_congr ?_
    intro x hx
    by_cases h1 : x.1 = k <;> by_cases h2 : x.1 ∈ ks <;>
      simp [h1, h2, List.mem_cons]

theorem flush_stale_filter (users : List (String × RemoteResource)) (now : Int)
    (hnd : (users.map Prod.fst).Nodup) :
    flush_users_once users now
      = users.filter
          (fun kv => !decide (kv.2.last_refreshed < now - refreshMaxDefault)) := by
  unfold flush_users_once
  rw [foldl_filter_delete]
  refine List.filter_congr ?_
  intro x hx
  by_cases hs : x.2.last_refreshed < now - refreshMaxDefault
  · have hmem : x.1 ∈ (users.filter
        (fun kv => decide (kv.2.last_refreshed < now - refreshMaxDefault))).map Prod.fst :=
      List.mem_map.mpr ⟨x, List.mem_filter.mpr ⟨hx, by simpa using hs⟩, rfl⟩
    simp [hmem, hs]
  · have hnotmem : x.1 ∉ (users.filter
        (fun kv => decide (kv.2.last_refreshed < now - refreshMaxDefault))).map Prod.fst := by
      intro hmem
      rcases List.mem_map.mp hmem with ⟨y, hy, hkey⟩
      have hy2 := List.mem_filter.mp hy
      have hxy : y = x := List.inj_on_of_nodup_map hnd hy2.1 hx hkey
      rw [hxy] at hy2
      exact hs (by simpa using hy2.2)
    simp [hnotmem, hs]

/-- Claim C9: one sweep pass removes exactly the entries whose last_refreshed
is strictly before now minus refresh_max, leaves every other entry present
and unmodified, and a second pass at the same time removes nothing further. -/
theorem flush_users_exact (users : List (String × RemoteResource)) (now : Int)
    (hnd : (users.map Prod.fst).Nodup) :
    flush_users_once users now
      = users.filter
          (fun kv => !decide (kv.2.last_refreshed < now - refreshMaxDefault))
    ∧ flush_users_once (flush_users_once users now) now
      = flush_users_once users now := by
  have h1 := flush_stale_filter users now hnd
  refine ⟨h1, ?_⟩
  have hnd2 : ((flush_users_once users now).map Prod.fst).Nodup := by
    rw [h1]
    exact (List.Sublist.map Prod.fst (List.filter_sublist users)).nodup hnd
  have h2 := flush_stale_filter (flush_users_once users now) now hnd2
  rw [h2, h1, List.filter_filter]
  exact List.filter_congr (fun x hx => Bool.and_self _)

/-- Witness for claim C9: a two-entry cache with one stale and one fresh
resource at sweep time 1000000. -/
theorem flush_users_exact_witness :
    (([("a", ({ last_refreshed := 0 } : RemoteResource)),
       ("b", ({ last_refreshed := 999000 } : RemoteResource))].map Prod.fst).Nodup)
    ∧ (flush_users_once
        [("a", ({ last_refreshed := 0 } : RemoteResource)),
         ("b", ({ last_refreshed := 999000 } : RemoteResource))] 1000000
      = [("a", ({ last_refreshed := 0 } : RemoteResource)),
         ("b", ({ last_refreshed := 999000 } : RemoteResource))].filter
          (fun kv => !decide (kv.2.last_refreshed < 1000000 - refreshMaxDefault))
      ∧ flush_users_once (flush_users_once
          [("a", ({ last_refreshed := 0 } : RemoteResource)),
           ("b", ({ last_refreshed := 999000 } : RemoteResource))] 1000000) 1000000
        = flush_users_once
          [("a", ({ last_refreshed := 0 } : RemoteResource)),
           ("b", ({ last_refreshed := 999000 } : RemoteResource))] 1000000) :=
  ⟨by decide,
    flush_users_exact
      [("a", ({ last_refreshed := 0 } : RemoteResource)),
       ("b", ({ last_refreshed := 999000 } : RemoteResource))] 1000000 (by decide)⟩

/-- Claim C6: a user record carrying the error 404 sentinel makes convert_json
fail with the not-found error before any response document is produced. -/
theorem convert_json_not_found_sentinel (pronouns user : PyDict)
    (hsent : alGet user "error" = some (Json.JNum 404)) :
    convert_json pronouns user = Except.error ConvErr.notFound := by
  have hhas : alHas user "error" = true := by simp [alHas, hsent]
  simp [convert_json, resolve_step, hhas]

/-- Witness for claim C6: the bare sentinel record against the example
pronoun dictionary. -/
theorem convert_json_not_found_sentinel_witness :
    alGet [("error", Json.JNum 404)] "error" = some (Json.JNum 404)
    ∧ convert_json example_pronouns [("error", Json.JNum 404)]
        = Except.error ConvErr.notFound :=
  ⟨rfl, convert_json_not_found_sentinel example_pronouns
    [("error", Json.JNum 404)] rfl⟩

/-- Claim C10: any user record in which the key error is present at all, with
whatever value, makes convert_json fail with the not-found error, regardless
of every other field and of the pronoun dictionary. -/
theorem convert_json_any_error_value (pronouns user : PyDict) (v : Json)
    (herr : alGet user "error" = some v) :
    convert_json pronouns user = Except.error ConvErr.notFound := by
  have hhas : alHas user "error" = true := by simp [alHas, herr]
  simp [convert_json, resolve_step, hhas]

/-- Witness for claim C10: a record with a null error value and an otherwise
resolvable pronoun_id, against an empty dictionary. -/
theorem convert_json_any_error_value_witness :
    alGet [("error", Json.JNull), ("pronoun_id", Json.JStr "hehim")] "error"
      = some Json.JNull
    ∧ convert_json []
        [("error", Json.JNull), ("pronoun_id", Json.JStr "hehim")]
      = Except.error ConvErr.notFound :=
  ⟨rfl, convert_json_any_error_value []
    [("error", Json.JNull), ("pronoun_id", Json.JStr "hehim")] Json.JNull rfl⟩

theorem alGetE_ok (d : PyDict) (k : String) (v : Json) :
    alGetE d k = Except.ok v ↔ alGet d k = some v := by
  cases h : alGet d k <;> simp [alGetE, h]

theorem pyLowerJ_ok (v w : Json) :
    pyLowerJ v = Except.ok w ↔ ∃ s, v = Json.JStr s ∧ w = Json.JStr s.toLower := by
  cases v <;> simp [pyLowerJ, eq_comm]

theorem pyUpperJ_ok (v w : Json) :
    pyUpperJ v = Except.ok w ↔ ∃ s, v = Json.JStr s ∧ w = Json.JStr s.toUpper := by
  cases v <;> simp [pyUpperJ, eq_comm]

theorem resolve_step_eval (pronouns user : PyDict) (pid : String)
    (P altv altJ : Json)
    (herr : alHas user "error" = false)
    (hpid : alGet user "pronoun_id" = some (Json.JStr pid))
    (hpr : alGet pronouns pid = some P)
    (halt : alGet user "alt_pronoun_id" = some altv)
    (hcase : (pyTruthy altv = false ∧ altJ = Json.JNull)
      ∨ (pyTruthy altv = true ∧ ∃ s, altv = Json.JStr s ∧ alGet pronouns s = some altJ)) :
    resolve_step pronouns user
      = Except.ok (alSet (alSet user "pronoun" P) "alt_pronoun" altJ) := by
  rcases hcase with ⟨hf, hnull⟩ | ⟨ht, s, hs, hres⟩
  · subst hnull
    simp [resolve_step, herr, alGetE, hpid, pyDictGetJ, hpr, halt, hf]
  · subst hs
    simp [resolve_step, herr, alGetE, hpid, pyDictGetJ, hpr, halt, ht, hres]

theorem display_step_eval (r2 : PyDict) (pkvs : List (String × Json))
    (sing : Json) (psub pobj : String) (altJ : Json) (asub : String)
    (hpron : alGet r2 "pronoun" = some (Json.JObj pkvs))
    (hsing : alGet pkvs "singular" = some sing)
    (hsubj : alGet pkvs "subject" = some (Json.JStr psub))
    (hobj : alGet pkvs "object" = some (Json.JStr pobj))
    (halt : alGet r2 "alt_pronoun" = some altJ)
    (haltsub : pyTruthy sing = false → pyTruthy altJ = true →
      ∃ akvs, altJ = Json.JObj akvs ∧ alGet akvs "subject" = some (Json.JStr asub)) :
    display_step r2 = Except.ok (alSet (alSet (alSet r2 "display"
        (Json.JStr (if pyTruthy sing then psub
          else if pyTruthy altJ then psub ++ "/" ++ asub
          else psub ++ "/" ++ pobj)))
        "display_lower" (Json.JStr (if pyTruthy sing then psub
          else if pyTruthy altJ then psub ++ "/" ++ asub
          else psub ++ "/" ++ pobj).toLower))
        "display_upper" (Json.JStr (if pyTruthy sing then psub
          else if pyTruthy altJ then psub ++ "/" ++ asub
          else psub ++ "/" ++ pobj).toUpper)) := by
  by_cases hs : pyTruthy sing = true
  · simp [display_step, respField, alGetE, jGetField, hpron, hsing, hsubj, hs,
      pyLowerJ, pyUpperJ, alGet_alSet]
  · have hs0 : pyTruthy sing = false := by simpa using hs
    by_cases ha : pyTruthy altJ = true
    · obtain ⟨akvs, haeq, hasub⟩ := haltsub hs0 ha
      subst haeq
      simp [display_step, respField, alGetE, jGetField, hpron, hsing, hsubj, halt,
        hs0, ha, hasub, pyStr, pyLowerJ, pyUpperJ, alGet_alSet]
    · have ha0 : pyTruthy altJ = false := by simpa using ha
      simp [display_step, respField, alGetE, jGetField, hpron, hsing, hsubj, hobj,
        halt, hs0, ha0, pyStr, pyLowerJ, pyUpperJ, alGet_alSet]

theorem subject_step_eval (r5 : PyDict) (pkvs : List (String × Json))
    (sing : Json) (psub pobj pid : String)
    (hpron : alGet r5 "pronoun" = some (Json.JObj pkvs))
    (hsing : alGet pkvs "singular" = some sing)
    (hsubj : alGet pkvs "subject" = some (Json.JStr psub))
    (hobj : alGet pkvs "object" = some (Json.JStr pobj))
    (hpid : alGet r5 "pronoun_id" = some (Json.JStr pid)) :
    subject_step r5 = Except.ok (alSet (alSet (alSet r5
        "subject" (Json.JStr (if pyTruthy sing = true ∨ pid = "theythem"
          then "They" else psub)))
        "subject_possessive" (Json.JStr (if pyTruthy sing = true ∨ pid = "theythem"
          then "They\x27re" else psub ++ "\x27s")))
        "object" (Json.JStr (if pyTruthy sing = true ∨ pid = "theythem"
          then "Them" else pobj))) := by
  by_cases hs : pyTruthy sing = true
  · simp [subject_step, respField, alGetE, jGetField, hpron, hsing, hs]
  · have hs0 : pyTruthy sing = false := by simpa using hs
    by_cases hth : pid = "theythem"
    · simp [subject_step, respField, alGetE, jGetField, hpron, hsing, hpid,
        hs0, hth]
    · simp [subject_step, respField, alGetE, jGetField, hpron, hsing, hsubj, hobj,
        hpid, hs0, hth, pyStr, alGet_alSet]

theorem lower_step_eval (r8 : PyDict) (s sp o : String)
    (hs : alGet r8 "subject" = some (Json.JStr s))
    (hsp : alGet r8 "subject_possessive" = some (Json.JStr sp))
    (ho : alGet r8 "object" = some (Json.JStr o)) :
    lower_step r8 = Except.ok (alSet (alSet (alSet r8
        "subject_lower" (Json.JStr s.toLower))
        "subject_possessive_lower" (Json.JStr sp.toLower))
        "object_lower" (Json.JStr o.toLower)) := by
  simp [lower_step, alGetE, hs, hsp, ho, pyLowerJ, alGet_alSet]

theorem convert_json_eval (pronouns user : PyDict) (pid : String)
    (pkvs : List (String × Json)) (sing : Json) (psub pobj : String)
    (altv altJ : Json) (asub : String)
    (herr : alHas user "error" = false)
    (hpid : alGet user "pronoun_id" = some (Json.JStr pid))
    (hpr : alGet pronouns pid = some (Json.JObj pkvs))
    (hsing : alGet pkvs "singular" = some sing)
    (hsubj : alGet pkvs "subject" = some (Json.JStr psub))
    (hobj : alGet pkvs "object" = some (Json.JStr pobj))
    (halt : alGet user "alt_pronoun_id" = some altv)
    (hcase : (pyTruthy altv = false ∧ altJ = Json.JNull)
      ∨ (pyTruthy altv = true ∧ ∃ s, altv = Json.JStr s ∧ alGet pronouns s = some altJ))
    (haltsub : pyTruthy sing = false → pyTruthy altJ = true →
      ∃ akvs, altJ = Json.JObj akvs ∧ alGet akvs "subject" = some (Json.JStr asub)) :
    ∃ r, convert_json pronouns user = Except.ok r
      ∧ alGet r "display" = some (Json.JStr (if pyTruthy sing then psub
          else if pyTruthy altJ then psub ++ "/" ++ asub
          else psub ++ "/" ++ pobj))
      ∧ alGet r "subject" = some (Json.JStr
          (if pyTruthy sing = true ∨ pid = "theythem" then "They" else psub))
      ∧ alGet r "subject_possessive" = some (Json.JStr
          (if pyTruthy sing = true ∨ pid = "theythem" then "They\x27re"
           else psub ++ "\x27s"))
      ∧ alGet r "object" = some (Json.JStr
          (if pyTruthy sing = true ∨ pid = "theythem" then "Them" else pobj)) := by
  obtain ⟨r2, hr2, hP2, hA2, hPid2⟩ :
      ∃ r2, resolve_step pronouns user = Except.ok r2
        ∧ alGet r2 "pronoun" = some (Json.JObj pkvs)
        ∧ alGet r2 "alt_pronoun" = some altJ
        ∧ alGet r2 "pronoun_id" = some (Json.JStr pid) :=
    ⟨_, resolve_step_eval pronouns user pid (Json.JObj pkvs) altv altJ
        herr hpid hpr halt hcase,
      by simp [alGet_alSet], by simp [alGet_alSet], by simp [alGet_alSet, hpid]⟩
  obtain ⟨r5, hr5, hd5, hP5, hPid5⟩ :
      ∃ r5, display_step r2 = Except.ok r5
        ∧ alGet r5 "display" = some (Json.JStr (if pyTruthy sing then psub
            else if pyTruthy altJ then psub ++ "/" ++ asub
            else psub ++ "/" ++ pobj))
        ∧ alGet r5 "pronoun" = some (Json.JObj pkvs)
        ∧ alGet r5 "pronoun_id" = some (Json.JStr pid) :=
    ⟨_, display_step_eval r2 pkvs sing psub pobj altJ asub hP2 hsing hsubj hobj
        hA2 haltsub,
      by simp [alGet_alSet], by simp [alGet_alSet, hP2], by simp [alGet_alSet, hPid2]⟩
  obtain ⟨r8, hr8, hS8, hSp8, hO8, hd8⟩ :
      ∃ r8, subject_step r5 = Except.ok r8
        ∧ alGet r8 "subject" = some (Json.JStr
            (if pyTruthy sing = true ∨ pid = "theythem" then "They" else psub))
        ∧ alGet r8 "subject_possessive" = some (Json.JStr
            (if pyTruthy sing = true ∨ pid = "theythem" then "They\x27re"
             else psub ++ "\x27s"))
        ∧ alGet r8 "object" = some (Json.JStr
            (if pyTruthy sing = true ∨ pid = "theythem" then "Them" else pobj))
        ∧ alGet r8 "display" = some (Json.JStr (if pyTruthy sing then psub
            else if pyTruthy altJ then psub ++ "/" ++ asub
            else psub ++ "/" ++ pobj)) :=
    ⟨_, subject_step_eval r5 pkvs sing psub pobj pid hP5 hsing hsubj hobj hPid5,
      by simp [alGet_alSet], by simp [alGet_alSet], by simp [alGet_alSet],
      by simp [alGet_alSet, hd5]⟩
  have hlow := lower_step_eval r8 _ _ _ hS8 hSp8 hO8
  have hcj : convert_json pronouns user = lower_step r8 := by
    simp only [convert_json, hr2, hr5, hr8]
  rw [hcj, hlow]
  refine ⟨_, rfl, ?_, ?_, ?_, ?_⟩
  · simp [alGet_alSet, hd8]
  · simp [alGet_alSet, hS8]
  · simp [alGet_alSet, hSp8]
  · simp [alGet_alSet, hO8]

/-- Claim C3: for a non-sentinel user record whose pronoun_id resolves to a
well-shaped pronoun record, and whose alt_pronoun_id, when truthy, resolves
as well, convert_json computes display as the pronoun subject when the
pronoun is singular, as subject slash alt subject when a truthy alt pronoun
was resolved, and as subject slash object otherwise. -/
theorem convert_json_display (pronouns user : PyDict) (pid : String)
    (pkvs : List (String × Json)) (sing : Json) (psub pobj : String)
    (altv altJ : Json) (asub : String)
    (herr : alHas user "error" = false)
    (hpid : alGet user "pronoun_id" = some (Json.JStr pid))
    (hpr : alGet pronouns pid = some (Json.JObj pkvs))
    (hsing : alGet pkvs "singular" = some sing)
    (hsubj : alGet pkvs "subject" = some (Json.JStr psub))
    (hobj : alGet pkvs "object" = some (Json.JStr pobj))
    (halt : alGet user "alt_pronoun_id" = some altv)
    (hcase : (pyTruthy altv = false ∧ altJ = Json.JNull)
      ∨ (pyTruthy altv = true ∧ ∃ s, altv = Json.JStr s ∧ alGet pronouns s = some altJ))
    (haltsub : pyTruthy sing = false → pyTruthy altJ = true →
      ∃ akvs, altJ = Json.JObj akvs ∧ alGet akvs "subject" = some (Json.JStr asub)) :
    ∃ r, convert_json pronouns user = Except.ok r
      ∧ alGet r "display" = some (Json.JStr (if pyTruthy sing then psub
          else if pyTruthy altJ then psub ++ "/" ++ asub
          else psub ++ "/" ++ pobj)) := by
  obtain ⟨r, h1, h2, h3, h4, h5⟩ := convert_json_eval pronouns user pid pkvs sing
    psub pobj altv altJ asub herr hpid hpr hsing hsubj hobj halt hcase haltsub
  exact ⟨r, h1, h2⟩

/-- Witness for claim C3: the example dictionary and first example user of
pronouns.py, scenario A of the spec, giving display He slash Any. -/
theorem convert_json_display_witness :
    alHas example_user_1 "error" = false
    ∧ alGet example_user_1 "pronoun_id" = some (Json.JStr "hehim")
    ∧ alGet example_pronouns "hehim" = some (Json.JObj
        [("name", Json.JStr "hehim"), ("subject", Json.JStr "He"),
         ("object", Json.JStr "Him"), ("singular", Json.JBool false)])
    ∧ (∃ r, convert_json example_pronouns example_user_1 = Except.ok r
        ∧ alGet r "display" = some (Json.JStr (if pyTruthy (Json.JBool false) then "He"
            else if pyTruthy (Json.JObj
              [("name", Json.JStr "any"), ("subject", Json.JStr "Any"),
               ("object", Json.JStr "Any"), ("singular", Json.JBool true)])
            then "He" ++ "/" ++ "Any"
            else "He" ++ "/" ++ "Him"))) :=
  ⟨rfl, rfl, rfl,
    convert_json_display example_pronouns example_user_1 "hehim"
      [("name", Json.JStr "hehim"), ("subject", Json.JStr "He"),
       ("object", Json.JStr "Him"), ("singular", Json.JBool false)]
      (Json.JBool false) "He" "Him" (Json.JStr "any")
      (Json.JObj [("name", Json.JStr "any"), ("subject", Json.JStr "Any"),
        ("object", Json.JStr "Any"), ("singular", Json.JBool true)])
      "Any" rfl rfl rfl rfl rfl rfl rfl
      (Or.inr ⟨by decide, "any", rfl, rfl⟩)
      (fun h1 h2 => ⟨[("name", Json.JStr "any"), ("subject", Json.JStr "Any"),
        ("object", Json.JStr "Any"), ("singular", Json.JBool true)], rfl, rfl⟩)⟩

/-- Claim C4: under the same resolvability assumptions, convert_json forces
subject They, subject_possessive They are, object Them exactly when the
resolved pronoun is singular or pronoun_id equals theythem, and otherwise
takes subject from the pronoun record, appends the possessive suffix, and
takes object from the pronoun record. -/
theorem convert_json_subject_override (pronouns user : PyDict) (pid : String)
    (pkvs : List (String × Json)) (sing : Json) (psub pobj : String)
    (altv altJ : Json) (asub : String)
    (herr : alHas user "error" = false)
    (hpid : alGet user "pronoun_id" = some (Json.JStr pid))
    (hpr : alGet pronouns pid = some (Json.JObj pkvs))
    (hsing : alGet pkvs "singular" = some sing)
    (hsubj : alGet pkvs "subject" = some (Json.JStr psub))
    (hobj : alGet pkvs "object" = some (Json.JStr pobj))
    (halt : alGet user "alt_pronoun_id" = some altv)
    (hcase : (pyTruthy altv = false ∧ altJ = Json.JNull)
      ∨ (pyTruthy altv = true ∧ ∃ s, altv = Json.JStr s ∧ alGet pronouns s = some altJ))
    (haltsub : pyTruthy sing = false → pyTruthy altJ = true →
      ∃ akvs, altJ = Json.JObj akvs ∧ alGet akvs "subject" = some (Json.JStr asub)) :
    ∃ r, convert_json pronouns user = Except.ok r
      ∧ alGet r "subject" = some (Json.JStr
          (if pyTruthy sing = true ∨ pid = "theythem" then "They" else psub))
      ∧ alGet r "subject_possessive" = some (Json.JStr
          (if pyTruthy sing = true ∨ pid = "theythem" then "They\x27re"
           else psub ++ "\x27s"))
      ∧ alGet r "object" = some (Json.JStr
          (if pyTruthy sing = true ∨ pid = "theythem" then "Them" else pobj)) := by
  obtain ⟨r, h1, h2, h3, h4, h5⟩ := convert_json_eval pronouns user pid pkvs sing
    psub pobj altv altJ asub herr hpid hpr hsing hsubj hobj halt hcase haltsub
  exact ⟨r, h1, h3, h4, h5⟩

/-- Witness for claim C4: the second example user of pronouns.py, whose
pronoun other is singular, so the override fires through the singular arm. -/
theorem convert_json_subject_override_witness :
    alHas example_user_2 "error" = false
    ∧ alGet example_user_2 "pronoun_id" = some (Json.JStr "other")
    ∧ alGet example_pronouns "other" = some (Json.JObj
        [("name", Json.JStr "other"), ("subject", Json.JStr "Other"),
         ("object", Json.JStr "Other"), ("singular", Json.JBool true)])
    ∧ (∃ r, convert_json example_pronouns example_user_2 = Except.ok r
        ∧ alGet r "subject" = some (Json.JStr
            (if pyTruthy (Json.JBool true) = true ∨ "other" = "theythem"
             then "They" else "Other"))
        ∧ alGet r "subject_possessive" = some (Json.JStr
            (if pyTruthy (Json.JBool true) = true ∨ "other" = "theythem"
             then "They\x27re" else "Other" ++ "\x27s"))
        ∧ alGet r "object" = some (Json.JStr
            (if pyTruthy (Json.JBool true) = true ∨ "other" = "theythem"
             then "Them" else "Other"))) :=
  ⟨rfl, rfl, rfl,
    convert_json_subject_override example_pronouns example_user_2 "other"
      [("name", Json.JStr "other"), ("subject", Json.JStr "Other"),
       ("object", Json.JStr "Other"), ("singular", Json.JBool true)]
      (Json.JBool true) "Other" "Other" Json.JNull Json.JNull "Any"
      rfl rfl rfl rfl rfl rfl rfl
      (Or.inl ⟨rfl, rfl⟩)
      (fun h1 h2 => absurd h1 (by decide))⟩

theorem display_step_ok (r2 r5 : PyDict) (h : display_step r2 = Except.ok r5) :
    ∃ d, r5 = alSet (alSet (alSet r2 "display" (Json.JStr d))
        "display_lower" (Json.JStr d.toLower))
        "display_upper" (Json.JStr d.toUpper) := by
  simp only [display_step] at h
  cases h1 : respField r2 "pronoun" "singular" with
  | error e => simp [h1] at h
  | ok sing =>
    simp only [h1] at h
    split at h
    · simp at h
    · rename_i disp heq
      have h3 : alGetE (alSet r2 "display" disp) "display" = Except.ok disp := by
        simp [alGetE, alGet_alSet_self]
      simp only [h3] at h
      cases h4 : pyLowerJ disp with
      | error e => simp [h4] at h
      | ok dlow =>
        simp only [h4] at h
        obtain ⟨d, hdisp, hdlow⟩ := (pyLowerJ_ok disp dlow).mp h4
        subst hdisp
        subst hdlow
        have h5 : alGetE (alSet (alSet r2 "display" (Json.JStr d))
            "display_lower" (Json.JStr d.toLower)) "display"
            = Except.ok (Json.JStr d) := by
          simp [alGetE, alGet_alSet]
        simp only [h5, pyUpperJ] at h
        exact ⟨d, by simpa using h.symm⟩

theorem subject_step_ok (r5 r8 : PyDict) (h : subject_step r5 = Except.ok r8) :
    ∃ x y z, r8 = alSet (alSet (alSet r5 "subject" x)
        "subject_possessive" y) "object" z := by
  simp only [subject_step] at h
  cases h1 : respField r5 "pronoun" "singular" with
  | error e => simp [h1] at h
  | ok sing =>
    simp only [h1] at h
    by_cases hs : pyTruthy sing = true
    · simp [hs] at h
      exact ⟨_, _, _, h.symm⟩
    · have hs0 : pyTruthy sing = false := by simpa using hs
      simp only [hs0, Bool.false_eq_true, if_false] at h
      cases hp : alGetE r5 "pronoun_id" with
      | error e => simp [hp] at h
      | ok pv =>
        simp only [hp] at h
        split at h
        · simp only [Except.ok.injEq] at h
          exact ⟨_, _, _, h.symm⟩
        · cases hsv : respField r5 "pronoun" "subject" with
          | error e => simp [hsv] at h
          | ok sv =>
            simp only [hsv] at h
            have h4 : alGetE (alSet r5 "subject" sv) "subject" = Except.ok sv := by
              simp [alGetE, alGet_alSet_self]
            simp only [h4] at h
            cases hov : respField (alSet (alSet r5 "subject" sv)
                "subject_possessive" (Json.JStr (pyStr sv ++ "\x27s")))
                "pronoun" "object" with
            | error e => simp [hov] at h
            | ok ov =>
              simp only [hov, Except.ok.injEq] at h
              exact ⟨_, _, _, h.symm⟩

theorem lower_step_ok (r8 r : PyDict) (h : lower_step r8 = Except.ok r) :
    ∃ s sp o, alGet r8 "subject" = some (Json.JStr s)
      ∧ alGet r8 "subject_possessive" = some (Json.JStr sp)
      ∧ alGet r8 "object" = some (Json.JStr o)
      ∧ r = alSet (alSet (alSet r8 "subject_lower" (Json.JStr s.toLower))
          "subject_possessive_lower" (Json.JStr sp.toLower))
          "object_lower" (Json.JStr o.toLower) := by
  simp only [lower_step] at h
  cases h1 : alGetE r8 "subject" with
  | error e => simp [h1] at h
  | ok sv =>
    simp only [h1] at h
    cases h2 : pyLowerJ sv with
    | error e => simp [h2] at h
    | ok sl =>
      simp only [h2] at h
      obtain ⟨s, hsv, hsl⟩ := (pyLowerJ_ok sv sl).mp h2
      subst hsv
      subst hsl
      cases h3 : alGetE (alSet r8 "subject_lower" (Json.JStr s.toLower))
          "subject_possessive" with
      | error e => simp [h3] at h
      | ok spv =>
        simp only [h3] at h
        cases h4 : pyLowerJ spv with
        | error e => simp [h4] at h
        | ok spl =>
          simp only [h4] at h
          obtain ⟨sp, hspv, hspl⟩ := (pyLowerJ_ok spv spl).mp h4
          subst hspv
          subst hspl
          cases h5 : alGetE (alSet (alSet r8 "subject_lower" (Json.JStr s.toLower))
              "subject_possessive_lower" (Json.JStr sp.toLower)) "object" with
          | error e => simp [h5] at h
          | ok ov =>
            simp only [h5] at h
            cases h6 : pyLowerJ ov with
            | error e => simp [h6] at h
            | ok ol =>
              simp only [h6, Except.ok.injEq] at h
              obtain ⟨o, hov, hol⟩ := (pyLowerJ_ok ov ol).mp h6
              subst hov
              subst hol
              refine ⟨s, sp, o, ?_, ?_, ?_, h.symm⟩
              · exact (alGetE_ok r8 "subject" (Json.JStr s)).mp h1
              · have := (alGetE_ok _ "subject_possessive" (Json.JStr sp)).mp h3
                rwa [alGet_alSet_ne _ _ _ _ (by decide)] at this
              · have := (alGetE_ok _ "object" (Json.JStr o)).mp h5
                rw [alGet_alSet_ne _ _ _ _ (by decide)] at this
                rwa [alGet_alSet_ne _ _ _ _ (by decide)] at this

/-- Claim C5: every successful run of convert_json returns a response whose
display_lower and display_upper are the lowercase and uppercase forms of its
display, and whose subject_lower, subject_possessive_lower and object_lower
are the lowercase forms of its subject, subject_possessive and object. -/
theorem convert_json_case_variants (pronouns user r : PyDict)
    (hok : convert_json pronouns user = Except.ok r) :
    ∃ d s sp o : String,
      alGet r "display" = some (Json.JStr d)
      ∧ alGet r "display_lower" = some (Json.JStr d.toLower)
      ∧ alGet r "display_upper" = some (Json.JStr d.toUpper)
      ∧ alGet r "subject" = some (Json.JStr s)
      ∧ alGet r "subject_lower" = some (Json.JStr s.toLower)
      ∧ alGet r "subject_possessive" = some (Json.JStr sp)
      ∧ alGet r "subject_possessive_lower" = some (Json.JStr sp.toLower)
      ∧ alGet r "object" = some (Json.JStr o)
      ∧ alGet r "object_lower" = some (Json.JStr o.toLower) := by
  simp only [convert_json] at hok
  cases h2 : resolve_step pronouns user with
  | error e => simp [h2] at hok
  | ok r2 =>
    simp only [h2] at hok
    cases h5 : display_step r2 with
    | error e => simp [h5] at hok
    | ok r5 =>
      simp only [h5] at hok
      cases h8 : subject_step r5 with
      | error e => simp [h8] at hok
      | ok r8 =>
        simp only [h8] at hok
        obtain ⟨d, hshape5⟩ := display_step_ok r2 r5 h5
        obtain ⟨x, y, z, hshape8⟩ := subject_step_ok r5 r8 h8
        obtain ⟨s, sp, o, hs8, hsp8, ho8, hshape⟩ := lower_step_ok r8 r hok
        subst hshape
        subst hshape8
        simp [alGet_alSet] at hs8 hsp8 ho8
        subst hshape5
        refine ⟨d, s, sp, o, ?_, ?_, ?_, ?_, ?_, ?_, ?_, ?_, ?_⟩ <;>
          simp [alGet_alSet, hs8, hsp8, ho8]

/-- Witness for claim C5: the successful run of convert_json on the example
dictionary and first example user of pronouns.py. -/
theorem convert_json_case_variants_witness :
    convert_json example_pronouns example_user_1
      = Except.ok ((convert_json example_pronouns example_user_1).toOption.getD [])
    ∧ ∃ d s sp o : String,
        alGet ((convert_json example_pronouns example_user_1).toOption.getD [])
          "display" = some (Json.JStr d)
        ∧ alGet ((convert_json example_pronouns example_user_1).toOption.getD [])
            "display_lower" = some (Json.JStr d.toLower)
        ∧ alGet ((convert_json example_pronouns example_user_1).toOption.getD [])
            "display_upper" = some (Json.JStr d.toUpper)
        ∧ alGet ((convert_json example_pronouns example_user_1).toOption.getD [])
            "subject" = some (Json.JStr s)
        ∧ alGet ((convert_json example_pronouns example_user_1).toOption.getD [])
            "subject_lower" = some (Json.JStr s.toLower)
        ∧ alGet ((convert_json example_pronouns example_user_1).toOption.getD [])
            "subject_possessive" = some (Json.JStr sp)
        ∧ alGet ((convert_json example_pronouns example_user_1).toOption.getD [])
            "subject_possessive_lower" = some (Json.JStr sp.toLower)
        ∧ alGet ((convert_json example_pronouns example_user_1).toOption.getD [])
            "object" = some (Json.JStr o)
        ∧ alGet ((convert_json example_pronouns example_user_1).toOption.getD [])
            "object_lower" = some (Json.JStr o.toLower) :=
  ⟨rfl, convert_json_case_variants example_pronouns example_user_1 _ rfl⟩
